import Mathlib

/-!
# MetaForge config-driven rendering engine — verification development

Shallow embedding of the frontend core of the MetaForge repository:
the style registry (`src/frontend/src/lib/styleRegistry.ts`), the style
inference engine (`src/frontend/src/lib/styleInference.ts`), the style
swap hook (`src/frontend/src/hooks/useStyleSwap.ts`), the data-pattern
hooks (`useQueryData` / `useAggregateData` / `useRecordData` plus the
query declarations of `src/frontend/src/hooks/useApi.ts`), and the
orchestrator `ConfiguredComponent`
(`src/frontend/src/components/ConfiguredComponent.tsx`).

JavaScript objects that the code treats as open string-keyed records
(`styleConfig`, inferred configs) are embedded as association lists of
`(key, JSValue)` pairs in which an entry whose value is `JSValue.jundefined`
models a key that is *present* with value `undefined` (as produced by
`result.subtitleField = ... ?? ...`), while a missing entry models an
absent key.  Object spread `{...a, ...b}` is embedded so that, for
lookup purposes, bindings of `b` shadow bindings of `a`.
-/

/-- JavaScript values as they occur in style configs.  Arrays are
specialised to the two shapes the inference code produces: arrays of
strings (`detailFields`, `searchFields`, ...) and arrays of
single-field column descriptors (`columns`). -/
inductive JSValue where
  | jundefined : JSValue
  | jnull : JSValue
  | jbool (b : Bool) : JSValue
  | jnum (n : Int) : JSValue
  | jstr (s : String) : JSValue
  | jstrArr (elems : List String) : JSValue
  | jcolArr (fields : List String) : JSValue
deriving DecidableEq, Repr

/-- A JS object: association list of key/value bindings.  Earlier
bindings shadow later ones (see `JSObj.get`). -/
abbrev JSObj := List (String × JSValue)

namespace JSObj

/-- Value of key `k` (`some .jundefined` = present but `undefined`;
`none` = absent). -/
def get (o : JSObj) (k : String) : Option JSValue :=
  (o.find? (fun p => p.1 == k)).map (·.2)

/-- The JS `k in o` test: key presence regardless of value. -/
def hasKey (o : JSObj) (k : String) : Bool :=
  (o.get k).isSome

/-- Object spread `{...a, ...b}`: bindings of `b` win over `a`. -/
def spread (a b : JSObj) : JSObj := b ++ a

end JSObj

/-- The `Array.isArray` test on the embedded values. -/
def JSValue.isArray : JSValue → Bool
  | .jstrArr _ => true
  | .jcolArr _ => true
  | _ => false

/-- An `Option String` coerced to a JS value (`undefined` when absent),
as in `find(...)?.name ?? ...` results assigned into an object. -/
def jsOfOptName : Option String → JSValue
  | some s => .jstr s
  | none => .jundefined

-- ---------------------------------------------------------------------------
-- Entity metadata (src/frontend/src/lib/types.ts)
-- ---------------------------------------------------------------------------

/-- Embedding of `FieldMetadata` — only the attributes the core consults
(`name`, `displayName`, `type`, `primaryKey?`). -/
structure FieldMetadata where
  name : String
  displayName : String
  type : String
  primaryKey : Option Bool := none
deriving DecidableEq, Repr

/-- Embedding of `EntityMetadata`. -/
structure EntityMetadata where
  entity : String
  displayName : String
  pluralName : String
  primaryKey : String
  fields : List FieldMetadata
deriving DecidableEq, Repr

-- ---------------------------------------------------------------------------
-- Filters (src/frontend/src/lib/types.ts)
-- ---------------------------------------------------------------------------

/-- The `'and' | 'or'` group operator. -/
inductive BoolOp where
  | and : BoolOp
  | or : BoolOp
deriving DecidableEq, Repr

/-- A node of the recursive filter tree: a leaf `FilterCondition`
or a nested `FilterGroup`. -/
inductive FilterEntry where
  | cond (field : String) (operator : String) (value : JSValue)
  | group (operator : BoolOp) (conditions : List FilterEntry)
deriving Repr

/-- Embedding of `FilterGroup`: an operator plus child conditions/groups. -/
structure FilterGroup where
  operator : BoolOp
  conditions : List FilterEntry
deriving Repr

-- ---------------------------------------------------------------------------
-- Style registry (src/frontend/src/lib/styleRegistry.ts, viewTypes.ts)
-- ---------------------------------------------------------------------------

/-- The four data patterns (`DataPattern` in viewTypes.ts). -/
inductive DataPattern where
  | query : DataPattern
  | aggregate : DataPattern
  | record : DataPattern
  | compose : DataPattern
deriving DecidableEq, Repr

instance : BEq DataPattern := ⟨fun a b => decide (a = b)⟩

instance : LawfulBEq DataPattern where
  eq_of_beq h := of_decide_eq_true h
  rfl := by intro a; simp [BEq.beq]

/-- Reference to a React component; `inert` is the fallback
`() => null` component that renders nothing. -/
inductive ComponentRef where
  | inert : ComponentRef
  | named (name : String) : ComponentRef
deriving DecidableEq, Repr

/-- Embedding of `StyleRegistration` (viewTypes.ts). -/
structure StyleRegistration where
  pattern : DataPattern
  style : String
  component : ComponentRef
  defaultStyleConfig : JSObj
  label : String
  inferConfig : Option (EntityMetadata → JSObj) := none
  suggestedPageSize : Option Nat := none
  composeComponent : Option ComponentRef := none

/-- Per-pattern map of the registry: a JS `Map<string, StyleRegistration>`
keyed by style, in insertion order (`Map.set` on an existing key keeps
its position). -/
abbrev PatternMap := List StyleRegistration

/-- The module-level `Map<DataPattern, Map<string, StyleRegistration>>`,
in insertion order of patterns. -/
abbrev StdRegistry := List (DataPattern × PatternMap)

/-- JS `Map.set(style, reg)` on a pattern map: replace the entry holding
this style in place, else append. -/
def PatternMap.setStyle (m : PatternMap) (reg : StyleRegistration) : PatternMap :=
  match m with
  | [] => [reg]
  | r :: rest =>
    if r.style = reg.style then reg :: rest else r :: PatternMap.setStyle rest reg

/-- The `registry.get(pattern)` lookup — the pattern's style map, if any. -/
def StdRegistry.patternMap (r : StdRegistry) (p : DataPattern) : Option PatternMap :=
  (r.find? (fun e => e.1 == p)).map (·.2)

/-- The `registerStyle(registration)` operation — upsert keyed by (pattern, style). -/
def registerStyle (r : StdRegistry) (reg : StyleRegistration) : StdRegistry :=
  match r with
  | [] => [(reg.pattern, [reg])]
  | (p, m) :: rest =>
    if p = reg.pattern then (p, PatternMap.setStyle m reg) :: rest
    else (p, m) :: registerStyle rest reg

/-- A registry populated by a sequence of `registerStyle` calls. -/
def buildRegistry (regs : List StyleRegistration) : StdRegistry :=
  regs.foldl registerStyle []

/-- The `getStyle(pattern, style)` operation — exact lookup or `null`. -/
def getStyle (r : StdRegistry) (p : DataPattern) (s : String) :
    Option StyleRegistration :=
  (r.patternMap p).bind (fun m => m.find? (fun reg => reg.style == s))

/-- The inert placeholder registration returned when a pattern has no
registrations at all (renders nothing). -/
def placeholderRegistration (p : DataPattern) (s : String) : StyleRegistration :=
  { pattern := p
    style := s
    component := .inert
    defaultStyleConfig := []
    label := s }

/-- The `getStyleOrFallback(pattern, style)` resolution: exact match, else the first
entry of the pattern's map, else the inert placeholder. -/
def getStyleOrFallback (r : StdRegistry) (p : DataPattern) (s : String) :
    StyleRegistration :=
  match getStyle r p s with
  | some exact => exact
  | none =>
    match r.patternMap p with
    | some (first :: _) => first
    | _ => placeholderRegistration p s

-- ---------------------------------------------------------------------------
-- Style inference (src/frontend/src/lib/styleInference.ts)
-- ---------------------------------------------------------------------------

def AUTO_FIELD_NAMES : List String :=
  ["id", "tenantId", "createdAt", "updatedAt", "createdBy", "updatedBy"]

def LONG_TEXT_TYPES : List String := ["text", "description", "address"]

def SEARCHABLE_TYPES : List String := ["name", "text", "email", "phone", "description"]

/-- Predicate `isAutoField`: primary key or reserved name. -/
def isAutoField (f : FieldMetadata) : Bool :=
  f.primaryKey == some true || AUTO_FIELD_NAMES.contains f.name

/-- Helper `findFirstByType(fields, types)`. -/
def findFirstByType (fields : List FieldMetadata) (types : List String) :
    Option FieldMetadata :=
  fields.find? (fun f => types.contains f.type)

/-- The `[result.titleField, result.subtitleField].filter(Boolean)` set:
a string survives when it is truthy (present and nonempty). -/
def truthyName : JSValue → List String
  | .jstr s => if s = "" then [] else [s]
  | _ => []

/-- The fields offered to inference:
`metadata.fields.filter((f) => !isAutoField(f))`. -/
def visibleFieldsOf (metadata : EntityMetadata) : List FieldMetadata :=
  metadata.fields.filter (fun f => !isAutoField f)

/-- One conditional assignment `if (key in defaultConfig) result.key = v`:
the single binding when the key is declared, nothing otherwise. -/
def entryIf (present : Bool) (k : String) (v : JSValue) : JSObj :=
  if present then [(k, v)] else []

/-- The `titleField` value: first `name`-typed field, else the first
visible field (`?.name ?? ...?.name`, `undefined` when both miss). -/
def inferTitleVal (visibleFields : List FieldMetadata) : JSValue :=
  jsOfOptName ((findFirstByType visibleFields ["name"]).map (·.name)
    |>.orElse fun _ => (visibleFields.head?).map (·.name))

/-- The read-back `result.titleField as string | undefined`, taken from the
partially built result. -/
def titleNameOf (defaultConfig : JSObj) (visibleFields : List FieldMetadata) :
    Option String :=
  match JSObj.get (entryIf (defaultConfig.hasKey "titleField") "titleField"
      (inferTitleVal visibleFields)) "titleField" with
  | some (.jstr s) => some s
  | _ => none

/-- The `subtitleField` value: first non-title `email` field, else `phone`. -/
def inferSubtitleVal (visibleFields : List FieldMetadata)
    (titleName : Option String) : JSValue :=
  let candidates := visibleFields.filter (fun f => titleName ≠ some f.name)
  jsOfOptName ((findFirstByType candidates ["email"]).map (·.name)
    |>.orElse fun _ => (findFirstByType candidates ["phone"]).map (·.name))

/-- The `statusField` / `laneField` value: first `picklist` field. -/
def inferPicklistVal (visibleFields : List FieldMetadata) : JSValue :=
  jsOfOptName ((findFirstByType visibleFields ["picklist"]).map (·.name))

/-- The heuristic `builtinInfer(defaultConfig, metadata)` — fills exactly the keys
present in `defaultConfig` from entity metadata, in source order.  A
heuristic that finds no field still assigns the key (with value
`undefined`). -/
def builtinInfer (defaultConfig : JSObj) (metadata : EntityMetadata) : JSObj :=
  let visibleFields := visibleFieldsOf metadata
  let titleEntry : JSObj :=
    entryIf (defaultConfig.hasKey "titleField") "titleField"
      (inferTitleVal visibleFields)
  let titleName : Option String := titleNameOf defaultConfig visibleFields
  let subtitleEntry : JSObj :=
    entryIf (defaultConfig.hasKey "subtitleField") "subtitleField"
      (inferSubtitleVal visibleFields titleName)
  -- `[result.titleField, result.subtitleField].filter(Boolean)`
  let usedTitleSubtitle : List String :=
    (match JSObj.get titleEntry "titleField" with
      | some v => truthyName v | none => []) ++
    (match JSObj.get subtitleEntry "subtitleField" with
      | some v => truthyName v | none => [])
  let detailEntry : JSObj :=
    entryIf (defaultConfig.hasKey "detailFields") "detailFields"
      (.jstrArr ((visibleFields.filter
        (fun f => !usedTitleSubtitle.contains f.name)).take 4 |>.map (·.name)))
  let statusEntry : JSObj :=
    entryIf (defaultConfig.hasKey "statusField") "statusField"
      (inferPicklistVal visibleFields)
  let laneEntry : JSObj :=
    entryIf (defaultConfig.hasKey "laneField") "laneField"
      (inferPicklistVal visibleFields)
  let displayEntry : JSObj :=
    entryIf (defaultConfig.hasKey "displayFields") "displayFields"
      (.jstrArr ((visibleFields.filter
        (fun f => !usedTitleSubtitle.contains f.name)).take 3 |>.map (·.name)))
  let searchEntry : JSObj :=
    entryIf (defaultConfig.hasKey "searchFields") "searchFields"
      (.jstrArr ((visibleFields.filter
        (fun f => SEARCHABLE_TYPES.contains f.type)).map (·.name)))
  let columnsEntry : JSObj :=
    entryIf (defaultConfig.hasKey "columns" &&
        (match JSObj.get defaultConfig "columns" with
          | some v => v.isArray | none => false)) "columns"
      (.jcolArr ((visibleFields.filter
        (fun f => !LONG_TEXT_TYPES.contains f.type)).map (·.name)))
  titleEntry ++ (subtitleEntry ++ (detailEntry ++ (statusEntry ++ (laneEntry ++
    (displayEntry ++ (searchEntry ++ columnsEntry))))))

/-- The merge `inferStyleConfig(options)` — 3-tier merge
`{...defaultStyleConfig, ...inferred, ...(savedStyleConfig ?? {})}`. -/
def inferStyleConfig (registration : StyleRegistration)
    (metadata : EntityMetadata) (savedStyleConfig : Option JSObj) : JSObj :=
  let inferred :=
    match registration.inferConfig with
    | some f => f metadata
    | none => builtinInfer registration.defaultStyleConfig metadata
  JSObj.spread (JSObj.spread registration.defaultStyleConfig inferred)
    (savedStyleConfig.getD [])

-- ---------------------------------------------------------------------------
-- View configuration (src/frontend/src/lib/viewTypes.ts)
-- ---------------------------------------------------------------------------

/-- Embedding of `SortField`. -/
structure SortField where
  field : String
  direction : String
deriving DecidableEq, Repr

/-- Embedding of `Measure` (aggregate computation). -/
structure Measure where
  field : String
  aggregate : String
  label : Option String := none
  format : Option String := none
deriving DecidableEq, Repr

/-- The `contextFilter: { field }` declaration. -/
structure ContextFilter where
  field : String
deriving DecidableEq, Repr

/-- The `parentContext: { recordId }` shape. -/
structure ParentContext where
  recordId : String
deriving DecidableEq, Repr

/-- Embedding of `DataConfig`.  Here `none` models an absent (or `undefined`/`null`)
optional property. -/
structure DataConfig where
  entityName : Option String := none
  filter : Option FilterGroup := none
  sort : Option (List SortField) := none
  pageSize : Option Nat := none
  fields : Option (List String) := none
  recordId : Option String := none
  groupBy : Option (List String) := none
  measures : Option (List Measure) := none
  contextFilter : Option ContextFilter := none
deriving Repr

/-- Embedding of `ConfigBase`. -/
structure ConfigBase where
  id : String
  name : String
  description : Option String := none
  entityName : Option String := none
  pattern : DataPattern
  style : String
  scope : String
  source : String
  dataConfig : DataConfig
  styleConfig : JSObj
deriving Repr

-- ---------------------------------------------------------------------------
-- ConfiguredComponent (src/frontend/src/components/ConfiguredComponent.tsx)
-- ---------------------------------------------------------------------------

/-- The effective `DataConfig` built by `ConfiguredComponent`
(lines 72–94): default `entityName` from the config, then inject the
context condition when both `contextFilter` and a parent context are
present.  With an existing filter the code builds
`{operator: 'and', conditions: [...existingFilter.conditions, contextCondition]}`. -/
def buildEffectiveDataConfig (config : ConfigBase)
    (parentContext : Option ParentContext) : DataConfig :=
  let base : DataConfig :=
    { config.dataConfig with
      entityName :=
        match config.dataConfig.entityName with
        | some e => some e
        | none => config.entityName }
  -- `base.contextFilter` / `base.filter` are the untouched
  -- `config.dataConfig` fields (only `entityName` was overridden above)
  match config.dataConfig.contextFilter, parentContext with
  | some cf, some pc =>
    let contextCondition : FilterEntry := .cond cf.field "eq" (.jstr pc.recordId)
    let merged : FilterGroup :=
      match config.dataConfig.filter with
      | some existingFilter =>
        { operator := .and
          conditions := existingFilter.conditions ++ [contextCondition] }
      | none => { operator := .and, conditions := [contextCondition] }
    { base with filter := some merged }
  | _, _ => base

/-- The neutral config `{ entityName: '' }` handed to inactive
providers (line 102–104). -/
def neutralDataConfig : DataConfig := { entityName := some "" }

/-- Argument passed to `useQueryData`:
`isQuery ? dataConfig : { entityName: '' }`. -/
def queryHookArg (pattern : DataPattern) (dataConfig : DataConfig) : DataConfig :=
  if pattern = .query then dataConfig else neutralDataConfig

/-- Argument passed to `useAggregateData`. -/
def aggregateHookArg (pattern : DataPattern) (dataConfig : DataConfig) : DataConfig :=
  if pattern = .aggregate then dataConfig else neutralDataConfig

/-- Argument passed to `useRecordData`. -/
def recordHookArg (pattern : DataPattern) (dataConfig : DataConfig) : DataConfig :=
  if pattern = .record then dataConfig else neutralDataConfig

-- ---------------------------------------------------------------------------
-- Data-fetch gating (src/frontend/src/hooks/useApi.ts and the three
-- data hooks).  A react-query `useQuery` issues its fetch unless the
-- call declares `enabled` and it evaluates to false.
-- ---------------------------------------------------------------------------

/-- Whether a `useQuery` call fetches, from its `enabled` option
(`none` = option not declared, which react-query defaults to enabled). -/
def reactQueryIssuesFetch (enabled : Option Bool) : Bool :=
  enabled.getD true

/-- Hook `useEntityQuery` (useApi.ts lines 34–46) declares no `enabled`
option. -/
def useEntityQueryEnabledOption (_entity : String) : Option Bool := none

/-- Hook `useAggregateQuery` (useApi.ts lines 62–72) declares
`enabled: !!entity`. -/
def useAggregateQueryEnabledOption (entity : String) : Option Bool :=
  some (entity ≠ "")

/-- Hook `useEntity` (useApi.ts lines 101–107) declares `enabled: !!id`. -/
def useEntityEnabledOption (id : Option String) : Option Bool :=
  some (match id with | some s => s ≠ "" | none => false)

/-- Whether `useQueryData(dataConfig)` issues its query request
(`useEntityQuery(dataConfig.entityName ?? '', request)`). -/
def queryDataFetchIssued (dataConfig : DataConfig) : Bool :=
  reactQueryIssuesFetch (useEntityQueryEnabledOption (dataConfig.entityName.getD ""))

/-- Whether `useAggregateData(dataConfig)` issues its aggregate request. -/
def aggregateDataFetchIssued (dataConfig : DataConfig) : Bool :=
  reactQueryIssuesFetch (useAggregateQueryEnabledOption (dataConfig.entityName.getD ""))

/-- Whether `useRecordData(dataConfig)` issues its record request
(`useEntity(entityName, dataConfig.recordId ?? undefined)`). -/
def recordDataFetchIssued (dataConfig : DataConfig) : Bool :=
  reactQueryIssuesFetch (useEntityEnabledOption dataConfig.recordId)

-- ---------------------------------------------------------------------------
-- Style swap (src/frontend/src/hooks/useStyleSwap.ts)
-- ---------------------------------------------------------------------------

/-- The swapped config computed by `useStyleSwap` (lines 59–97).
`currentConfig` is `undefined` while loading; `metadata` is the
entity-metadata fetch result; `savedTargetConfig` is
`savedTargetConfigs?.[0]?.styleConfig`.  JS numeric truthiness makes a
`suggestedPageSize` of `0` behave like an undeclared one. -/
def computeSwapConfig (registry : StdRegistry) (currentConfig : Option ConfigBase)
    (targetStyle : String) (metadata : Option EntityMetadata)
    (savedTargetConfig : Option JSObj) : Option ConfigBase :=
  match currentConfig with
  | none => none
  | some cfg =>
    if targetStyle = cfg.style then some cfg
    else
      match metadata with
      | none => none
      | some md =>
        let sourceRegistration := getStyle registry cfg.pattern cfg.style
        let targetRegistration := getStyleOrFallback registry cfg.pattern targetStyle
        let sourcePageSize := sourceRegistration.bind (·.suggestedPageSize)
        let targetPageSize := targetRegistration.suggestedPageSize
        let newPageSize :=
          match sourcePageSize, targetPageSize with
          | some s, some t =>
            if s ≠ 0 ∧ t ≠ 0 ∧ cfg.dataConfig.pageSize = some s then some t
            else cfg.dataConfig.pageSize
          | _, _ => cfg.dataConfig.pageSize
        let newDataConfig := { cfg.dataConfig with pageSize := newPageSize }
        let newStyleConfig := inferStyleConfig targetRegistration md savedTargetConfig
        some { cfg with
          id := "transient:" ++ cfg.id ++ ":" ++ targetStyle
          name := cfg.name ++ " (" ++ targetRegistration.label ++ ")"
          style := targetStyle
          source := "transient"
          dataConfig := newDataConfig
          styleConfig := newStyleConfig }

-- ---------------------------------------------------------------------------
-- Aggregate provider adaptation (src/frontend/src/hooks/useAggregateData.ts)
-- ---------------------------------------------------------------------------

/-- A result row (`Record<string, unknown>`). -/
abbrev Row := JSObj

/-- Embedding of `PaginationInfo`. -/
structure PaginationInfo where
  total : Nat
  limit : Option Nat
  offset : Nat
  hasMore : Bool
deriving DecidableEq, Repr

/-- Embedding of `QueryResult`. -/
structure QueryResult where
  data : List Row
  pagination : PaginationInfo
deriving DecidableEq, Repr

/-- Embedding of `AggregateResult` (useApi.ts): the aggregate endpoint's
`{data, total}` response body. -/
structure AggregateResult where
  data : List Row
  total : Nat
deriving DecidableEq, Repr

/-- The adaptation of an aggregate response into the paginated shape
(useAggregateData.ts lines 45–56). -/
def adaptAggregateResult (aggregateResult : AggregateResult) : QueryResult :=
  { data := aggregateResult.data
    pagination :=
      { total := aggregateResult.total
        limit := none
        offset := 0
        hasMore := false } }

/-- Modelled from the spec: the backend aggregate endpoint
(`POST /aggregate/{entity}`, Python code under `backend/src/metaforge`,
absent from the sources here) answers `{data: object[], total}` where
aggregates are not paginated and `total` is the count of grouped rows
returned. -/
def aggregateEndpointResponse (rows : List Row) : AggregateResult :=
  { data := rows, total := rows.length }

-- ---------------------------------------------------------------------------
-- Shared lemmas
-- ---------------------------------------------------------------------------

/-- Lookup distributes over concatenation: the earlier chunk wins. -/
theorem JSObj.get_append (a b : JSObj) (k : String) :
    JSObj.get (a ++ b) k = ((JSObj.get a k).or (JSObj.get b k)) := by
  unfold JSObj.get
  rw [List.find?_append]
  cases a.find? (fun p => p.1 == k) <;> simp

/-- A lookup hitting in the earlier chunk is preserved. -/
theorem JSObj.get_append_left {a : JSObj} (b : JSObj) {k : String} {v : JSValue}
    (h : JSObj.get a k = some v) : JSObj.get (a ++ b) k = some v := by
  rw [JSObj.get_append, h]; rfl

/-- A lookup missing the earlier chunk falls through. -/
theorem JSObj.get_append_right {a : JSObj} (b : JSObj) {k : String}
    (h : JSObj.get a k = none) : JSObj.get (a ++ b) k = JSObj.get b k := by
  rw [JSObj.get_append, h]; rfl

-- ---------------------------------------------------------------------------
-- Concrete fixtures used by witnesses and counterexamples
-- ---------------------------------------------------------------------------


/-- Contact-like entity metadata from the spec's inference example:
a `name` field, an `email` field and a `picklist` field, none auto. -/
def mdContact : EntityMetadata :=
  { entity := "contact", displayName := "Contact", pluralName := "Contacts"
    primaryKey := "id"
    fields :=
      [ { name := "fullName", displayName := "Full Name", type := "name" }
      , { name := "email", displayName := "Email", type := "email" }
      , { name := "status", displayName := "Status", type := "picklist" } ] }

/-- A default style config declaring `titleField`, `subtitleField` and
`statusField` (values themselves undeclared). -/
def defaultsTitleSubtitleStatus : JSObj :=
  [("titleField", .jundefined), ("subtitleField", .jundefined), ("statusField", .jundefined)]

/-- Metadata with a single `name` field: no email, phone or picklist
field at all. -/
def mdTask : EntityMetadata :=
  { entity := "task", displayName := "Task", pluralName := "Tasks"
    primaryKey := "id"
    fields := [ { name := "title", displayName := "Title", type := "name" } ] }

/-- A registered query/grid style suggesting 25 rows per page. -/
def regGrid : StyleRegistration :=
  { pattern := .query, style := "grid", component := .named "QueryGrid"
    defaultStyleConfig := [("columns", .jcolArr [])], label := "Grid"
    suggestedPageSize := some 25 }

/-- A registered query/card-list style suggesting 12 cards per page. -/
def regCard : StyleRegistration :=
  { pattern := .query, style := "card-list", component := .named "CardList"
    defaultStyleConfig := [("titleField", .jundefined), ("subtitleField", .jundefined)]
    label := "Cards", suggestedPageSize := some 12 }

/-- A concrete persisted query config rendered with the grid style. -/
def cfgContacts : ConfigBase :=
  { id := "yaml:contact-grid", name := "Contacts", pattern := .query
    style := "grid", scope := "tenant", source := "yaml"
    dataConfig := { entityName := some "contact" }
    styleConfig := [] }

/-- A pre-existing `or` filter. -/
def orFilter : FilterGroup :=
  { operator := .or, conditions := [.cond "status" "eq" (.jstr "active")] }

/-- A config carrying both the `or` filter and a `contextFilter`. -/
def cfgOr : ConfigBase :=
  { cfgContacts with dataConfig :=
    { entityName := some "contact"
      filter := some orFilter
      contextFilter := some { field := "companyId" } } }

-- ---------------------------------------------------------------------------
-- C5 — same-style swap is the identity
-- ---------------------------------------------------------------------------

/-- C5: swapping to the currently-active style returns the current
config itself (`return currentConfig` — the very same value, with the
same id, not a rebuilt one), for every registry, metadata state and
saved-config state: in particular no inference is consulted.
Referential identity of the JS object is modelled as the result being
the unchanged input value. -/
theorem swap_same_style_identity (registry : StdRegistry) (cfg : ConfigBase)
    (metadata : Option EntityMetadata) (saved : Option JSObj) :
    computeSwapConfig registry (some cfg) cfg.style metadata saved = some cfg := by
  simp [computeSwapConfig]

-- ---------------------------------------------------------------------------
-- C7 — the spec's inference example
-- ---------------------------------------------------------------------------

/-- The contact-card registration used in the inference example:
no custom inference function. -/
def regContactCard : StyleRegistration :=
  { pattern := .query, style := "card-list", component := .named "CardList"
    defaultStyleConfig := defaultsTitleSubtitleStatus, label := "Cards" }

/-- C7: for a registration with no custom inference function whose
defaults declare `titleField`, `subtitleField` and `statusField`, and
fields `[fullName:name, email:email, status:picklist]` (none auto), the
built-in inference yields `titleField='fullName'`,
`subtitleField='email'`, `statusField='status'` — both directly and
through the merged `inferStyleConfig` output. -/
theorem inference_example_contact :
    JSObj.get (builtinInfer defaultsTitleSubtitleStatus mdContact) "titleField"
      = some (.jstr "fullName") ∧
    JSObj.get (builtinInfer defaultsTitleSubtitleStatus mdContact) "subtitleField"
      = some (.jstr "email") ∧
    JSObj.get (builtinInfer defaultsTitleSubtitleStatus mdContact) "statusField"
      = some (.jstr "status") ∧
    JSObj.get (inferStyleConfig regContactCard mdContact none) "titleField"
      = some (.jstr "fullName") ∧
    JSObj.get (inferStyleConfig regContactCard mdContact none) "subtitleField"
      = some (.jstr "email") ∧
    JSObj.get (inferStyleConfig regContactCard mdContact none) "statusField"
      = some (.jstr "status") := by
  refine ⟨?_, ?_, ?_, ?_, ?_, ?_⟩ <;> decide

-- ---------------------------------------------------------------------------
-- C9 — aggregate adaptation
-- ---------------------------------------------------------------------------

/-- C9: adapting the aggregate endpoint's response yields the rows
unchanged with `total` equal to the row count, `hasMore = false`,
`offset = 0` and no limit.  (The endpoint itself is modelled from the
spec, see `aggregateEndpointResponse`.) -/
theorem aggregate_adaptation_rowcount (rows : List Row) :
    (adaptAggregateResult (aggregateEndpointResponse rows)).data = rows ∧
    (adaptAggregateResult (aggregateEndpointResponse rows)).pagination.total
      = (adaptAggregateResult (aggregateEndpointResponse rows)).data.length ∧
    (adaptAggregateResult (aggregateEndpointResponse rows)).pagination.hasMore = false ∧
    (adaptAggregateResult (aggregateEndpointResponse rows)).pagination.offset = 0 ∧
    (adaptAggregateResult (aggregateEndpointResponse rows)).pagination.limit = none :=
  ⟨rfl, rfl, rfl, rfl, rfl⟩

-- ---------------------------------------------------------------------------
-- C6 — saved config always wins
-- ---------------------------------------------------------------------------

/-- C6: any key present in `savedStyleConfig` (even with value
`undefined`) maps, in the merged output of `inferStyleConfig`, to the
saved value — overriding both the registration default and the
inferred value. -/
theorem savedStyleConfig_precedence (registration : StyleRegistration)
    (metadata : EntityMetadata) (saved : JSObj) (k : String) (v : JSValue)
    (h : JSObj.get saved k = some v) :
    JSObj.get (inferStyleConfig registration metadata (some saved)) k = some v := by
  unfold inferStyleConfig JSObj.spread
  exact JSObj.get_append_left _ h

/-- Witness for C6 at a concrete saved config: the saved
`titleField` beats both the default and the inferred `fullName`. -/
theorem savedStyleConfig_precedence_witness :
    JSObj.get [("titleField", .jstr "nickname")] "titleField"
      = some (.jstr "nickname") ∧
    JSObj.get (inferStyleConfig regContactCard mdContact
        (some [("titleField", .jstr "nickname")])) "titleField"
      = some (.jstr "nickname") :=
  ⟨by decide,
    savedStyleConfig_precedence regContactCard mdContact
      [("titleField", .jstr "nickname")] "titleField" (.jstr "nickname") (by decide)⟩

-- ---------------------------------------------------------------------------
-- C1 — contextFilter injection
-- ---------------------------------------------------------------------------

/-- C1 counterexample: with a pre-existing `or` filter, the injected
context condition is appended into a *new* `and` group — the existing
filter's `or` operator is replaced, not left untouched as the claim
states. -/
theorem contextFilter_or_operator_replaced :
    cfgOr.dataConfig.filter = some orFilter ∧
    orFilter.operator = .or ∧
    (buildEffectiveDataConfig cfgOr (some { recordId := "abc" })).filter =
      some { operator := .and
             conditions := orFilter.conditions ++ [.cond "companyId" "eq" (.jstr "abc")] } ∧
    BoolOp.or ≠ BoolOp.and :=
  ⟨rfl, rfl, rfl, by decide⟩

/-- C1 amended: with a `contextFilter` and a parent context, exactly one
condition `{field, 'eq', parentContext.recordId}` is added; with no
existing filter the result is `{and, [condition]}`; with an existing
filter the result is a single `and` group holding the existing filter's
conditions, in order and untouched, followed by the new condition — the
existing group's *operator* is discarded and replaced by `and`. -/
theorem contextFilter_injection_amended (config : ConfigBase)
    (parentContext : ParentContext) (cf : ContextFilter)
    (hcf : config.dataConfig.contextFilter = some cf) :
    (config.dataConfig.filter = none →
      (buildEffectiveDataConfig config (some parentContext)).filter =
        some { operator := .and
               conditions := [.cond cf.field "eq" (.jstr parentContext.recordId)] }) ∧
    (∀ g, config.dataConfig.filter = some g →
      (buildEffectiveDataConfig config (some parentContext)).filter =
        some { operator := .and
               conditions := g.conditions ++
                 [.cond cf.field "eq" (.jstr parentContext.recordId)] }) := by
  constructor
  · intro hnone
    simp [buildEffectiveDataConfig, hcf, hnone]
  · intro g hg
    simp [buildEffectiveDataConfig, hcf, hg]

/-- Witness for C1's amended claim at the `or`-filter fixture. -/
theorem contextFilter_injection_amended_witness :
    cfgOr.dataConfig.contextFilter = some { field := "companyId" } ∧
    (buildEffectiveDataConfig cfgOr (some { recordId := "abc" })).filter =
      some { operator := .and
             conditions := orFilter.conditions ++ [.cond "companyId" "eq" (.jstr "abc")] } :=
  ⟨rfl,
    (contextFilter_injection_amended cfgOr { recordId := "abc" }
      { field := "companyId" } rfl).2 orFilter rfl⟩

-- ---------------------------------------------------------------------------
-- C8 — swap with missing metadata
-- ---------------------------------------------------------------------------

/-- C8 counterexample: a swap *to the currently-active style* attempted
while entity metadata is still missing returns the current config, not
null — the metadata check sits after the same-style early return. -/
theorem swap_missing_metadata_same_style_counterexample :
    computeSwapConfig [] (some cfgContacts) "grid" none none = some cfgContacts ∧
    some cfgContacts ≠ (none : Option ConfigBase) :=
  ⟨rfl, by simp⟩

/-- C8 amended: a swap to a style *different from the current one*
attempted while entity metadata is missing returns null ("not ready")
rather than any partially inferred config; a same-style swap returns
the current config unchanged regardless of metadata. -/
theorem swap_missing_metadata_returns_null (registry : StdRegistry)
    (cfg : ConfigBase) (targetStyle : String) (saved : Option JSObj)
    (hne : targetStyle ≠ cfg.style) :
    computeSwapConfig registry (some cfg) targetStyle none saved = none := by
  simp [computeSwapConfig, hne]

/-- Witness for C8's amended claim: a grid→card-list swap with
unresolved metadata yields null. -/
theorem swap_missing_metadata_returns_null_witness :
    "card-list" ≠ cfgContacts.style ∧
    computeSwapConfig [] (some cfgContacts) "card-list" none none = none :=
  ⟨by decide,
    swap_missing_metadata_returns_null [] cfgContacts "card-list" none (by decide)⟩

-- ---------------------------------------------------------------------------
-- C3 — neutral configs for inactive providers
-- ---------------------------------------------------------------------------

/-- C3 counterexample: the neutral config `{entityName: ''}` does *not*
disable the query request — `useEntityQuery` declares no `enabled`
option, so `useQueryData` issues its fetch even for an empty entity
name. -/
theorem neutral_config_query_fetch_issued :
    neutralDataConfig.entityName = some "" ∧
    queryDataFetchIssued neutralDataConfig = true :=
  ⟨rfl, rfl⟩

/-- C3 amended: every provider whose pattern is not the active one
receives the neutral config `{entityName: ''}`; under that config the
aggregate request (`enabled: !!entity`) and the record request
(`enabled: !!id`) are disabled, but the query request carries no
`enabled` guard and is issued regardless. -/
theorem inactive_providers_neutral_amended (pattern : DataPattern)
    (dataConfig : DataConfig) :
    (pattern ≠ .query → queryHookArg pattern dataConfig = neutralDataConfig) ∧
    (pattern ≠ .aggregate → aggregateHookArg pattern dataConfig = neutralDataConfig) ∧
    (pattern ≠ .record → recordHookArg pattern dataConfig = neutralDataConfig) ∧
    aggregateDataFetchIssued neutralDataConfig = false ∧
    recordDataFetchIssued neutralDataConfig = false ∧
    queryDataFetchIssued neutralDataConfig = true := by
  refine ⟨?_, ?_, ?_, rfl, rfl, rfl⟩
  · intro h; simp [queryHookArg, h]
  · intro h; simp [aggregateHookArg, h]
  · intro h; simp [recordHookArg, h]

/-- Witness for C3's amended claim at the compose pattern: all three
providers get the neutral config; only the query fetch fires. -/
theorem inactive_providers_neutral_amended_witness :
    DataPattern.compose ≠ .query ∧
    queryHookArg .compose cfgContacts.dataConfig = neutralDataConfig ∧
    aggregateHookArg .compose cfgContacts.dataConfig = neutralDataConfig ∧
    recordHookArg .compose cfgContacts.dataConfig = neutralDataConfig ∧
    aggregateDataFetchIssued neutralDataConfig = false :=
  ⟨by decide,
    (inactive_providers_neutral_amended .compose cfgContacts.dataConfig).1 (by decide),
    (inactive_providers_neutral_amended .compose cfgContacts.dataConfig).2.1 (by decide),
    (inactive_providers_neutral_amended .compose cfgContacts.dataConfig).2.2.1 (by decide),
    (inactive_providers_neutral_amended .compose cfgContacts.dataConfig).2.2.2.1⟩

-- ---------------------------------------------------------------------------
-- C4 — page-size adaptation on style swap
-- ---------------------------------------------------------------------------

/-- The registry holding only the card-list style (the grid style was
never registered, so a grid source is unresolvable). -/
def registryCardOnly : StdRegistry := buildRegistry [regCard]

/-- A grid-styled config whose page size happens to be 12. -/
def cfgGrid12 : ConfigBase :=
  { cfgContacts with
    dataConfig := { entityName := some "contact", pageSize := some 12 } }

/-- The swap's page-size rule in isolation (useStyleSwap.ts
lines 67–79): adopt the target's suggestion only when both sides
declare truthy suggestions and the current size equals the source's. -/
def adaptedPageSize (registry : StdRegistry) (cfg : ConfigBase)
    (targetStyle : String) : Option Nat :=
  let sourcePageSize :=
    (getStyle registry cfg.pattern cfg.style).bind (fun r => r.suggestedPageSize)
  let targetPageSize :=
    (getStyleOrFallback registry cfg.pattern targetStyle).suggestedPageSize
  match sourcePageSize, targetPageSize with
  | some s, some t =>
    if s ≠ 0 ∧ t ≠ 0 ∧ cfg.dataConfig.pageSize = some s then some t
    else cfg.dataConfig.pageSize
  | _, _ => cfg.dataConfig.pageSize

/-- Closed form of a genuine (different-style, metadata-present) swap. -/
theorem computeSwapConfig_ne_style (registry : StdRegistry) (cfg : ConfigBase)
    (targetStyle : String) (md : EntityMetadata) (saved : Option JSObj)
    (hne : targetStyle ≠ cfg.style) :
    computeSwapConfig registry (some cfg) targetStyle (some md) saved =
      some { cfg with
        id := "transient:" ++ cfg.id ++ ":" ++ targetStyle
        name := cfg.name ++ " (" ++
          (getStyleOrFallback registry cfg.pattern targetStyle).label ++ ")"
        style := targetStyle
        source := "transient"
        dataConfig := { cfg.dataConfig with
          pageSize := adaptedPageSize registry cfg targetStyle }
        styleConfig := inferStyleConfig
          (getStyleOrFallback registry cfg.pattern targetStyle) md saved } := by
  simp [computeSwapConfig, adaptedPageSize, hne]

/-- C4 counterexample: after a grid→card-list swap with the source
style unresolvable in the registry, the resulting pageSize (12, carried
forward) *equals* the target's suggestedPageSize (12) even though the
source declares no suggested size — refuting the claim's "if and only
if". -/
theorem pageSize_iff_coincidence_counterexample :
    getStyle registryCardOnly .query "grid" = none ∧
    cfgGrid12.style = "grid" ∧
    cfgGrid12.dataConfig.pageSize = some 12 ∧
    (getStyleOrFallback registryCardOnly .query "card-list").suggestedPageSize = some 12 ∧
    (computeSwapConfig registryCardOnly (some cfgGrid12) "card-list"
        (some mdContact) none).map (fun c => c.dataConfig.pageSize)
      = some (some 12) :=
  ⟨rfl, rfl, rfl, rfl, rfl⟩

/-- C4 amended: on a swap to a different style with metadata present,
the result's pageSize is the target's suggestedPageSize when source and
target both declare truthy (nonzero) suggested sizes and the current
pageSize strictly equals the source's; in every other case (source
unresolvable included) the current pageSize is carried forward
unmodified — which may coincidentally equal the target's suggestion. -/
theorem pageSize_adaptation_amended (registry : StdRegistry) (cfg : ConfigBase)
    (targetStyle : String) (md : EntityMetadata) (saved : Option JSObj)
    (hne : targetStyle ≠ cfg.style) :
    ∃ c, computeSwapConfig registry (some cfg) targetStyle (some md) saved = some c ∧
      (∀ s t,
        (getStyle registry cfg.pattern cfg.style).bind
          (fun r => r.suggestedPageSize) = some s →
        (getStyleOrFallback registry cfg.pattern targetStyle).suggestedPageSize = some t →
        s ≠ 0 → t ≠ 0 → cfg.dataConfig.pageSize = some s →
        c.dataConfig.pageSize = some t) ∧
      ((¬ ∃ s t,
        (getStyle registry cfg.pattern cfg.style).bind
          (fun r => r.suggestedPageSize) = some s ∧
        (getStyleOrFallback registry cfg.pattern targetStyle).suggestedPageSize = some t ∧
        s ≠ 0 ∧ t ≠ 0 ∧ cfg.dataConfig.pageSize = some s) →
        c.dataConfig.pageSize = cfg.dataConfig.pageSize) := by
  refine ⟨_, computeSwapConfig_ne_style registry cfg targetStyle md saved hne, ?_, ?_⟩
  · intro s t hs ht hs0 ht0 hcur
    show adaptedPageSize registry cfg targetStyle = some t
    simp only [adaptedPageSize, hs, ht]
    rw [if_pos ⟨hs0, ht0, hcur⟩]
  · intro hnot
    show adaptedPageSize registry cfg targetStyle = cfg.dataConfig.pageSize
    simp only [adaptedPageSize]
    rcases hsrc : (getStyle registry cfg.pattern cfg.style).bind
        (fun r => r.suggestedPageSize) with _ | s
    · rfl
    · rcases htgt : (getStyleOrFallback registry cfg.pattern
          targetStyle).suggestedPageSize with _ | t
      · rfl
      · show (if s ≠ 0 ∧ t ≠ 0 ∧ cfg.dataConfig.pageSize = some s then some t
            else cfg.dataConfig.pageSize) = cfg.dataConfig.pageSize
        rw [if_neg]
        intro hcond
        exact hnot ⟨s, t, hsrc, htgt, hcond.1, hcond.2.1, hcond.2.2⟩

/-- The registry holding grid (suggested 25) and card-list
(suggested 12). -/
def registryGridCard : StdRegistry := buildRegistry [regGrid, regCard]

/-- A grid-styled config at the grid's suggested page size 25. -/
def cfgGrid25 : ConfigBase :=
  { cfgContacts with
    dataConfig := { entityName := some "contact", pageSize := some 25 } }

/-- Witness for C4's amended claim at the spec's own example:
grid (suggested 25), pageSize 25, swap to card-list (suggested 12)
adopts pageSize 12. -/
theorem pageSize_adaptation_amended_witness :
    ∃ c, computeSwapConfig registryGridCard (some cfgGrid25) "card-list"
        (some mdContact) none = some c ∧
      c.dataConfig.pageSize = some 12 := by
  obtain ⟨c, hc, hadopt, _⟩ :=
    pageSize_adaptation_amended registryGridCard cfgGrid25 "card-list"
      mdContact none (by decide)
  exact ⟨c, hc, hadopt 25 12 rfl rfl (by decide) (by decide) rfl⟩


-- ---------------------------------------------------------------------------
-- C2 — getStyleOrFallback never fails
-- ---------------------------------------------------------------------------

/-- Unfolding of `patternMap` on a cons cell. -/
theorem patternMap_cons (q : DataPattern) (m : PatternMap) (rest : StdRegistry)
    (p : DataPattern) :
    StdRegistry.patternMap ((q, m) :: rest) p =
      if q = p then some m else StdRegistry.patternMap rest p := by
  by_cases h : q = p
  · simp [StdRegistry.patternMap, List.find?_cons, h]
  · simp [StdRegistry.patternMap, List.find?_cons, h]

/-- How `registerStyle` transforms the pattern map. -/
theorem patternMap_registerStyle (r : StdRegistry) (reg : StyleRegistration)
    (p : DataPattern) :
    (registerStyle r reg).patternMap p =
      if p = reg.pattern then
        some (match r.patternMap p with
              | some m => PatternMap.setStyle m reg
              | none => [reg])
      else r.patternMap p := by
  induction r with
  | nil =>
    by_cases h : p = reg.pattern
    · simp [registerStyle, patternMap_cons, StdRegistry.patternMap, h]
    · simp [registerStyle, patternMap_cons, StdRegistry.patternMap, h, Ne.symm h]
  | cons e rest ih =>
    obtain ⟨q, m⟩ := e
    simp only [registerStyle]
    by_cases hq : q = reg.pattern
    · rw [if_pos hq]
      by_cases hp : q = p
      · have hpp : p = reg.pattern := hp ▸ hq
        rw [patternMap_cons q (PatternMap.setStyle m reg) rest p, if_pos hp,
          patternMap_cons q m rest p, if_pos hp, if_pos hpp]
      · have hpp : ¬ p = reg.pattern := fun hc => hp (hq.trans hc.symm)
        rw [patternMap_cons q (PatternMap.setStyle m reg) rest p, if_neg hp,
          patternMap_cons q m rest p, if_neg hp, if_neg hpp]
    · rw [if_neg hq]
      by_cases hp : q = p
      · have hpp : ¬ p = reg.pattern := fun hc => hq (hp.trans hc)
        rw [patternMap_cons q m (registerStyle rest reg) p, if_pos hp,
          patternMap_cons q m rest p, if_pos hp, if_neg hpp]
      · rw [patternMap_cons q m (registerStyle rest reg) p, if_neg hp, ih,
          patternMap_cons q m rest p, if_neg hp]

/-- Upserting never changes the style of the map's first entry (and
creates it on an empty map). -/
theorem setStyle_headStyle (m : PatternMap) (reg : StyleRegistration) :
    (PatternMap.setStyle m reg).head?.map (·.style) =
      some ((m.head?.map (·.style)).getD reg.style) := by
  cases m with
  | nil => rfl
  | cons r rest =>
    unfold PatternMap.setStyle
    by_cases h : r.style = reg.style
    · rw [if_pos h]
      simp [h]
    · rw [if_neg h]
      simp

/-- The style of a pattern's first map entry, if any. -/
def headStyleOf (r : StdRegistry) (p : DataPattern) : Option String :=
  (r.patternMap p).bind (fun m => m.head?.map (·.style))

/-- A `registerStyle` call either seeds or preserves the first style. -/
theorem headStyleOf_registerStyle (r : StdRegistry) (reg : StyleRegistration)
    (p : DataPattern) :
    headStyleOf (registerStyle r reg) p =
      if p = reg.pattern then some ((headStyleOf r p).getD reg.style)
      else headStyleOf r p := by
  unfold headStyleOf
  rw [patternMap_registerStyle]
  by_cases h : p = reg.pattern
  · rw [if_pos h, if_pos h]
    cases hm : r.patternMap p with
    | none => rfl
    | some m =>
      show (PatternMap.setStyle m reg).head?.map (·.style) = _
      rw [setStyle_headStyle]
      rfl
  · rw [if_neg h, if_neg h]

/-- A first style, once present, survives any further registrations. -/
theorem headStyleOf_foldl_preserved (regs : List StyleRegistration)
    (acc : StdRegistry) (p : DataPattern) (s₀ : String)
    (h : headStyleOf acc p = some s₀) :
    headStyleOf (regs.foldl registerStyle acc) p = some s₀ := by
  induction regs generalizing acc with
  | nil => exact h
  | cons r rest ih =>
    rw [List.foldl_cons]
    apply ih
    rw [headStyleOf_registerStyle]
    by_cases hp : p = r.pattern
    · rw [if_pos hp, h]
      rfl
    · rw [if_neg hp]
      exact h

/-- After folding, the first style for `p` is the style of the first
registration made for `p`. -/
theorem headStyleOf_foldl_first (regs : List StyleRegistration)
    (acc : StdRegistry) (p : DataPattern) (f : StyleRegistration)
    (hacc : headStyleOf acc p = none)
    (hf : regs.find? (fun r => r.pattern == p) = some f) :
    headStyleOf (regs.foldl registerStyle acc) p = some f.style := by
  induction regs generalizing acc with
  | nil => cases hf
  | cons r rest ih =>
    rw [List.foldl_cons]
    by_cases hp : r.pattern = p
    · rw [List.find?_cons_of_pos] at hf
      · injection hf with hf
        subst hf
        apply headStyleOf_foldl_preserved
        rw [headStyleOf_registerStyle, if_pos hp.symm, hacc]
        rfl
      · simp [hp]
    · rw [List.find?_cons_of_neg] at hf
      · apply ih _ _ hf
        rw [headStyleOf_registerStyle, if_neg (fun hc => hp hc.symm)]
        exact hacc
      · simp [hp]

/-- A pattern never registered has no map after folding. -/
theorem patternMap_foldl_none (regs : List StyleRegistration)
    (acc : StdRegistry) (p : DataPattern)
    (hacc : acc.patternMap p = none)
    (hnone : regs.find? (fun r => r.pattern == p) = none) :
    (regs.foldl registerStyle acc).patternMap p = none := by
  induction regs generalizing acc with
  | nil => exact hacc
  | cons r rest ih =>
    rw [List.foldl_cons]
    by_cases hp : r.pattern = p
    · rw [List.find?_cons_of_pos] at hnone
      · cases hnone
      · simp [hp]
    · rw [List.find?_cons_of_neg] at hnone
      · refine ih _ ?_ hnone
        rw [patternMap_registerStyle, if_neg (fun hc => hp hc.symm)]
        exact hacc
      · simp [hp]

/-- C2: `getStyleOrFallback` on a registry populated by any sequence of
`registerStyle` calls never fails: it returns the exact registration
when (pattern, style) is registered; otherwise, when at least one style
was ever registered for the pattern, the registration currently stored
under the *first-registered* style for that pattern; otherwise the
inert placeholder, whose component renders nothing. -/
theorem getStyleOrFallback_resolution (regs : List StyleRegistration)
    (p : DataPattern) (s : String) :
    (∀ r, getStyle (buildRegistry regs) p s = some r →
      getStyleOrFallback (buildRegistry regs) p s = r) ∧
    (getStyle (buildRegistry regs) p s = none →
      ∀ f, regs.find? (fun r => r.pattern == p) = some f →
        (getStyleOrFallback (buildRegistry regs) p s).style = f.style ∧
        getStyle (buildRegistry regs) p
            (getStyleOrFallback (buildRegistry regs) p s).style
          = some (getStyleOrFallback (buildRegistry regs) p s)) ∧
    (regs.find? (fun r => r.pattern == p) = none →
      getStyleOrFallback (buildRegistry regs) p s = placeholderRegistration p s) ∧
    (placeholderRegistration p s).component = .inert := by
  refine ⟨?_, ?_, ?_, rfl⟩
  · intro r h
    unfold getStyleOrFallback
    rw [h]
  · intro hnone f hf
    have h0 : headStyleOf (buildRegistry regs) p = some f.style :=
      headStyleOf_foldl_first regs [] p f rfl hf
    unfold headStyleOf at h0
    rcases hm : (buildRegistry regs).patternMap p with _ | m
    · rw [hm] at h0; cases h0
    · rw [hm] at h0
      cases m with
      | nil => simp at h0
      | cons first rest =>
        simp only [Option.some_bind, List.head?_cons, Option.map_some'] at h0
        injection h0 with h0
        have hres : getStyleOrFallback (buildRegistry regs) p s = first := by
          unfold getStyleOrFallback
          rw [hnone, hm]
        rw [hres]
        refine ⟨h0, ?_⟩
        unfold getStyle
        rw [hm]
        rw [Option.some_bind, List.find?_cons_of_pos]
        simp
  · intro hf
    have hpm : (buildRegistry regs).patternMap p = none :=
      patternMap_foldl_none regs [] p rfl hf
    unfold getStyleOrFallback getStyle
    rw [hpm]
    rfl

/-- Witness for C2 on a two-style registry: exact hit, fallback to the
first-registered style, and the placeholder for an empty pattern. -/
theorem getStyleOrFallback_resolution_witness :
    getStyleOrFallback (buildRegistry [regGrid, regCard]) .query "card-list" = regCard ∧
    (getStyleOrFallback (buildRegistry [regGrid, regCard]) .query "kanban").style = "grid" ∧
    getStyleOrFallback (buildRegistry [regGrid, regCard]) .record "kanban"
      = placeholderRegistration .record "kanban" :=
  ⟨(getStyleOrFallback_resolution [regGrid, regCard] .query "card-list").1 regCard rfl,
    ((getStyleOrFallback_resolution [regGrid, regCard] .query "kanban").2.1
      rfl regGrid rfl).1,
    (getStyleOrFallback_resolution [regGrid, regCard] .record "kanban").2.2.1 rfl⟩

-- ---------------------------------------------------------------------------
-- C10 — inference overrides defaults with undefined
-- ---------------------------------------------------------------------------

/-- A conditional entry never answers for a different key. -/
theorem entryIf_get_ne (b : Bool) (k k' : String) (v : JSValue) (h : ¬ k = k') :
    JSObj.get (entryIf b k v) k' = none := by
  cases b
  · rfl
  · simp [entryIf, JSObj.get, List.find?_cons, h]

/-- A singleton object answers for its own key. -/
theorem JSObj.get_singleton_eq (k : String) (v : JSValue) :
    JSObj.get [(k, v)] k = some v := by
  simp [JSObj.get, List.find?_cons]

/-- Lemma: `findFirstByType` finds nothing when no field has a listed type. -/
theorem findFirstByType_eq_none (fields : List FieldMetadata)
    (types : List String) (h : ∀ f ∈ fields, ¬ types.contains f.type = true) :
    findFirstByType fields types = none := by
  unfold findFirstByType
  exact List.find?_eq_none.mpr h

/-- With no email and no phone field in sight, the subtitle heuristic
yields `undefined`. -/
theorem inferSubtitleVal_undef (visibleFields : List FieldMetadata)
    (titleName : Option String)
    (h : ∀ f ∈ visibleFields, f.type ≠ "email" ∧ f.type ≠ "phone") :
    inferSubtitleVal visibleFields titleName = .jundefined := by
  simp only [inferSubtitleVal]
  rw [findFirstByType_eq_none, findFirstByType_eq_none]
  · rfl
  · intro f hf
    have hmem := (List.mem_filter.mp hf).1
    simp [(h f hmem).2]
  · intro f hf
    have hmem := (List.mem_filter.mp hf).1
    simp [(h f hmem).1]

/-- With no picklist field, the status/lane heuristic yields
`undefined`. -/
theorem inferPicklistVal_undef (visibleFields : List FieldMetadata)
    (h : ∀ f ∈ visibleFields, f.type ≠ "picklist") :
    inferPicklistVal visibleFields = .jundefined := by
  unfold inferPicklistVal
  rw [findFirstByType_eq_none]
  · rfl
  · intro f hf
    simp [h f hf]

/-- What `builtinInfer` answers for `subtitleField` when the key is
declared in the defaults. -/
theorem builtinInfer_get_subtitle (defaultConfig : JSObj)
    (metadata : EntityMetadata)
    (hkey : JSObj.hasKey defaultConfig "subtitleField" = true) :
    JSObj.get (builtinInfer defaultConfig metadata) "subtitleField" =
      some (inferSubtitleVal (visibleFieldsOf metadata)
        (titleNameOf defaultConfig (visibleFieldsOf metadata))) := by
  simp only [builtinInfer]
  rw [JSObj.get_append_right _ (entryIf_get_ne _ _ _ _ (by decide))]
  rw [hkey]
  exact JSObj.get_append_left _ (JSObj.get_singleton_eq _ _)

/-- What `builtinInfer` answers for `statusField` when the key is
declared in the defaults. -/
theorem builtinInfer_get_status (defaultConfig : JSObj)
    (metadata : EntityMetadata)
    (hkey : JSObj.hasKey defaultConfig "statusField" = true) :
    JSObj.get (builtinInfer defaultConfig metadata) "statusField" =
      some (inferPicklistVal (visibleFieldsOf metadata)) := by
  simp only [builtinInfer]
  rw [JSObj.get_append_right _ (entryIf_get_ne _ _ _ _ (by decide))]
  rw [JSObj.get_append_right _ (entryIf_get_ne _ _ _ _ (by decide))]
  rw [JSObj.get_append_right _ (entryIf_get_ne _ _ _ _ (by decide))]
  rw [hkey]
  exact JSObj.get_append_left _ (JSObj.get_singleton_eq _ _)

/-- C10: when the defaults declare `subtitleField` and `statusField`
with defined (non-`undefined`) values but the metadata has no
email/phone field and no picklist field, the built-in inference still
emits both keys with value `undefined`, and the merged
`inferStyleConfig` output (no saved config) therefore maps them to
`undefined` — the registration's defined defaults are overridden, not
preserved. -/
theorem builtin_inference_undef_override (reg : StyleRegistration)
    (metadata : EntityMetadata) (v w : JSValue)
    (hinfer : reg.inferConfig = none)
    (hsub : JSObj.get reg.defaultStyleConfig "subtitleField" = some v)
    (hv : v ≠ .jundefined)
    (hstat : JSObj.get reg.defaultStyleConfig "statusField" = some w)
    (hw : w ≠ .jundefined)
    (hmail : ∀ f ∈ metadata.fields, f.type ≠ "email" ∧ f.type ≠ "phone")
    (hpick : ∀ f ∈ metadata.fields, f.type ≠ "picklist") :
    JSObj.get (builtinInfer reg.defaultStyleConfig metadata) "subtitleField"
      = some .jundefined ∧
    JSObj.get (builtinInfer reg.defaultStyleConfig metadata) "statusField"
      = some .jundefined ∧
    JSObj.get (inferStyleConfig reg metadata none) "subtitleField" = some .jundefined ∧
    JSObj.get (inferStyleConfig reg metadata none) "statusField" = some .jundefined ∧
    JSObj.get (inferStyleConfig reg metadata none) "subtitleField"
      ≠ JSObj.get reg.defaultStyleConfig "subtitleField" ∧
    JSObj.get (inferStyleConfig reg metadata none) "statusField"
      ≠ JSObj.get reg.defaultStyleConfig "statusField" := by
  have hkeysub : JSObj.hasKey reg.defaultStyleConfig "subtitleField" = true := by
    rw [JSObj.hasKey, hsub]; rfl
  have hkeystat : JSObj.hasKey reg.defaultStyleConfig "statusField" = true := by
    rw [JSObj.hasKey, hstat]; rfl
  have hvf : ∀ f ∈ visibleFieldsOf metadata, f.type ≠ "email" ∧ f.type ≠ "phone" :=
    fun f hf => hmail f (List.mem_filter.mp hf).1
  have hvp : ∀ f ∈ visibleFieldsOf metadata, f.type ≠ "picklist" :=
    fun f hf => hpick f (List.mem_filter.mp hf).1
  have hA : JSObj.get (builtinInfer reg.defaultStyleConfig metadata) "subtitleField"
      = some .jundefined := by
    rw [builtinInfer_get_subtitle _ _ hkeysub, inferSubtitleVal_undef _ _ hvf]
  have hB : JSObj.get (builtinInfer reg.defaultStyleConfig metadata) "statusField"
      = some .jundefined := by
    rw [builtinInfer_get_status _ _ hkeystat, inferPicklistVal_undef _ hvp]
  have hmerge : ∀ k, JSObj.get (builtinInfer reg.defaultStyleConfig metadata) k
      = some JSValue.jundefined →
      JSObj.get (inferStyleConfig reg metadata none) k = some .jundefined := by
    intro k hk
    simp only [inferStyleConfig, hinfer, JSObj.spread]
    rw [show ((none : Option JSObj).getD []) = ([] : JSObj) from rfl,
      List.nil_append]
    exact JSObj.get_append_left _ hk
  refine ⟨hA, hB, hmerge _ hA, hmerge _ hB, ?_, ?_⟩
  · rw [hmerge _ hA, hsub]
    intro hc
    exact hv (Option.some.inj hc).symm
  · rw [hmerge _ hB, hstat]
    intro hc
    exact hw (Option.some.inj hc).symm

/-- Witness for C10 at a task entity with only a `name` field and
defaults carrying defined subtitle/status values. -/
theorem builtin_inference_undef_override_witness :
    JSObj.get (inferStyleConfig
      { pattern := .query, style := "card-list", component := .named "CardList"
        defaultStyleConfig := [("subtitleField", .jstr "x"), ("statusField", .jstr "y")]
        label := "Cards" } mdTask none) "subtitleField" = some .jundefined ∧
    JSObj.get (inferStyleConfig
      { pattern := .query, style := "card-list", component := .named "CardList"
        defaultStyleConfig := [("subtitleField", .jstr "x"), ("statusField", .jstr "y")]
        label := "Cards" } mdTask none) "statusField" = some .jundefined :=
  ⟨(builtin_inference_undef_override
      { pattern := .query, style := "card-list", component := .named "CardList"
        defaultStyleConfig := [("subtitleField", .jstr "x"), ("statusField", .jstr "y")]
        label := "Cards" } mdTask (.jstr "x") (.jstr "y")
      rfl (by decide) (by decide) (by decide) (by decide)
      (by decide) (by decide)).2.2.1,
    (builtin_inference_undef_override
      { pattern := .query, style := "card-list", component := .named "CardList"
        defaultStyleConfig := [("subtitleField", .jstr "x"), ("statusField", .jstr "y")]
        label := "Cards" } mdTask (.jstr "x") (.jstr "y")
      rfl (by decide) (by decide) (by decide) (by decide)
      (by decide) (by decide)).2.2.2.1⟩
